import Mathlib

/-!
Shallow embedding of the WhatsApp sender service (`src/unnamed/part_000`,
the robust variant) and proofs of its specified properties.

External effects (the whatsapp-web.js client, axios, timers) are modelled
as explicit outcome oracles passed in as parameters; JavaScript errors are
modelled by their message strings (the source stringifies every error with
`String(err && err.message || err)` before using it).
-/

namespace WsService

/-! ## Configuration constants (lines 39-43 of the source) -/

/-- `MAX_RETRIES = 3`: total attempts per operation. -/
def MAX_RETRIES : Nat := 3

/-- `RETRY_BASE_MS = 500`: backoff base in milliseconds. -/
def RETRY_BASE_MS : Nat := 500

/-- `backoffDelay(attempt) = RETRY_BASE_MS * Math.pow(2, attempt)` (line 68). -/
def backoffDelay (attempt : Nat) : Nat := RETRY_BASE_MS * 2 ^ attempt

/-! ## String helpers mirroring the JavaScript string operations used -/

/-- Does `hay` start with `needle`? (helper for `String.prototype.includes`). -/
def charsStartWith : List Char → List Char → Bool
  | [], _ => true
  | _ :: _, [] => false
  | a :: as, b :: bs => a == b && charsStartWith as bs

/-- Does `hay` contain `needle` as a contiguous run? -/
def charsInclude (hay needle : List Char) : Bool :=
  match hay with
  | [] => needle.isEmpty
  | _ :: rest => charsStartWith needle hay || charsInclude rest needle

/-- JavaScript `hay.includes(needle)`. -/
def strIncludes (hay needle : String) : Bool :=
  charsInclude hay.data needle.data

/-- JavaScript `s.replace(/\D/g, '')`: keep only the decimal digits. -/
def stripNonDigits (s : String) : String :=
  ⟨s.data.filter Char.isDigit⟩

/-! ## Number normalizer (`normalizeNumber`, lines 76-90) -/

/--
`normalizeNumber(raw)` with the digits-only default country code
`countryCode` (the processed `DEFAULT_COUNTRY_CODE`, line 34) supplied as a
parameter. A falsy `raw` is modelled as the empty string.
-/
def normalizeNumber (countryCode : String) (raw : String) : Option String :=
  if raw.isEmpty then none
  else
    let digits := stripNonDigits raw
    if digits.isEmpty then none
    else if 11 ≤ digits.length then some digits
    else
      let digits :=
        if 8 ≤ digits.length ∧ digits.length ≤ 10 ∧ countryCode.isEmpty = false then
          countryCode ++ digits
        else digits
      if 8 ≤ digits.length then some digits else none

/-! ## Retry executor (`withRetries`, lines 126-140) -/

/-- One `warn` line emitted by `withRetries` after a failed attempt
(line 135): the label, the 1-based attempt number as printed, the
stringified error and the computed delay. -/
structure RetryLog where
  label : String
  attemptShown : Nat
  msg : String
  delay : Nat
  deriving DecidableEq

/-- What a run of `withRetries` produces: the value returned or the error
thrown (`Except.error none` models throwing the initial `undefined`
`lastErr`, reachable only with a zero attempt budget), the sequence of
`sleep` delays performed, and the warning log lines. -/
structure RetryOutcome (A : Type) where
  result : Except (Option String) A
  delays : List Nat
  logs : List RetryLog

/-- The `for` loop of `withRetries`: `fuel` is `MAX_RETRIES - attempt`.
`fn attempt` is the outcome of the `attempt`-th invocation of the wrapped
operation. -/
def withRetriesGo {A : Type} (fn : Nat → Except String A) (label : String) :
    Nat → Nat → Option String → RetryOutcome A
  | 0, _, lastErr => ⟨.error lastErr, [], []⟩
  | fuel + 1, attempt, _ =>
    match fn attempt with
    | .ok a => ⟨.ok a, [], []⟩
    | .error e =>
      let d := backoffDelay attempt
      let rest := withRetriesGo fn label fuel (attempt + 1) (some e)
      ⟨rest.result, d :: rest.delays, ⟨label, attempt + 1, e, d⟩ :: rest.logs⟩

/-- `withRetries(fn, label)` (lines 126-140). -/
def withRetries {A : Type} (fn : Nat → Except String A) (label : String) :
    RetryOutcome A :=
  withRetriesGo fn label MAX_RETRIES 0 none

/-! ## Media resolver (`buildMediaFromUrl`, lines 96-123) -/

/-- A `MessageMedia` value as constructed by the source: mime type,
base64-encoded payload and an optional filename. -/
structure MessageMedia where
  mimetype : String
  data : String
  filename : Option String
  deriving DecidableEq

/-- The observable part of an axios response used by the fallback path:
the `content-type` header (`none` when absent) and the raw body bytes. -/
structure AxiosResp where
  contentType : Option String
  data : List Nat
  deriving DecidableEq

/-- Outcomes of the two external collaborators of `buildMediaFromUrl` for
one particular URL and invocation: `MessageMedia.fromUrl` (primary path),
`axios.get` (fallback path), and Node's `Buffer#toString('base64')`
encoder. Errors carry their stringified message. -/
structure MediaEnv where
  fromUrl : Except String MessageMedia
  axiosGet : Except String AxiosResp
  b64 : List Nat → String

/-- JavaScript truthy-or-default `x || d` on an optional string: the empty
string is falsy. -/
def orDefault (x : Option String) (d : String) : String :=
  match x with
  | some s => if s.isEmpty then d else s
  | none => d

/-- JavaScript `String.prototype.split` with a single-character
separator: `"a//b".split('/') = ["a","","b"]`, `"".split('/') = [""]`. -/
def splitOnChar (sep : Char) : List Char → List (List Char)
  | [] => [[]]
  | c :: rest =>
    let r := splitOnChar sep rest
    if c == sep then [] :: r
    else
      match r with
      | [] => [[c]]
      | g :: gs => (c :: g) :: gs

/-- `s.split(sep)` for a one-character separator. -/
def jsSplit (s : String) (sep : Char) : List String :=
  (splitOnChar sep s.data).map (fun l => ⟨l⟩)

/-- `imageUrl.split('/').pop().split('?')[0] || 'image'` (line 118). -/
def filenameFromUrl (imageUrl : String) : String :=
  let last := (jsSplit imageUrl '/').getLastD ""
  let base := (jsSplit last '?').headD ""
  if base.isEmpty then "image" else base

/-- `buildMediaFromUrl(imageUrl)` (lines 96-123): try
`MessageMedia.fromUrl`; on failure fall back to a manual axios download,
defaulting the mime type to `image/jpeg` and deriving the filename from
the final path segment of the URL. -/
def buildMediaFromUrl (env : MediaEnv) (imageUrl : String) :
    Except String MessageMedia :=
  match env.fromUrl with
  | .ok media => .ok media
  | .error _ =>
    match env.axiosGet with
    | .ok resp =>
      let contentType := orDefault resp.contentType "image/jpeg"
      let base64 := env.b64 resp.data
      let filename := filenameFromUrl imageUrl
      .ok ⟨contentType, base64, some filename⟩
    | .error e => .error ("No se pudo descargar la imagen: " ++ e)

/-! ## Connection lifecycle state (lines 46-51, 160-186, 205-228) -/

/-- The process-wide mutable session state: `clientReady`, `clientState`,
whether the reconnect interval timer is armed (`reconnectTimer`), the last
QR payload, and the `initializing` in-flight flag. -/
structure WaState where
  clientReady : Bool
  clientState : String
  reconnectTimer : Bool
  lastQr : Option String
  initializing : Bool
  deriving DecidableEq

/-- `initClient()` (lines 177-186): a no-op while `initializing` is set;
otherwise raises the flag and calls `client.initialize()`. The boolean
records whether `client.initialize()` was invoked. -/
def initClient (s : WaState) : WaState × Bool :=
  if s.initializing then (s, false)
  else ({ s with initializing := true }, true)

/-- `scheduleReconnect()` (lines 160-175): arming is a no-op when a timer
is already scheduled; otherwise the interval timer is armed. -/
def scheduleReconnect (s : WaState) : WaState :=
  if s.reconnectTimer then s
  else { s with reconnectTimer := true }

/-- The `ready` event handler (lines 205-210): mark ready, drop the
in-flight flag, clear any armed reconnect timer. -/
def onReady (s : WaState) : WaState :=
  { s with clientReady := true, initializing := false, reconnectTimer := false }

/-- The `auth_failure` event handler (lines 216-221). -/
def onAuthFailure (s : WaState) : WaState :=
  scheduleReconnect { s with clientReady := false, initializing := false }

/-- The `disconnected` event handler (lines 223-228). -/
def onDisconnected (s : WaState) : WaState :=
  scheduleReconnect { s with clientReady := false, initializing := false }

/-! ## Bulk dispatcher (`POST /send-whatsapp` loop, lines 284-333) -/

/-- The `status` field of a per-recipient result entry. -/
inductive SendStatus where
  | sent
  | sent_with_warning
  | failed
  deriving DecidableEq, BEq

/-- One entry of `results`: the number (raw when normalization failed,
normalized otherwise), the status, and the optional `reason` / `warning`
fields. -/
structure DispatchResult where
  number : String
  status : SendStatus
  reason : Option String := none
  warning : Option String := none
  deriving DecidableEq

/-- Which send operation the loop body invoked for one recipient. -/
inductive SendKind where
  | media (m : MessageMedia) (caption : Option String)
  | text (t : String)
  deriving DecidableEq

/-- Observable backend interactions for one recipient: whether the
retry-wrapped `getNumberId` lookup ran, and which send (if any) ran. -/
structure RecipientTrace where
  lookedUp : Bool
  send : Option SendKind
  deriving DecidableEq

/-- Attempt-indexed outcomes of the whatsapp-web.js client operations the
loop performs: `getNumberId` yields the `_serialized` chat id (or `null`),
and `sendMessage` for media/text content. `getChatById` (line 305) is
best-effort with its result and errors fully swallowed, so it has no
observable outcome and is not modelled. -/
structure DispatchEnv where
  getNumberId : String → Nat → Except String (Option String)
  sendMedia : String → MessageMedia → Option String → Nat → Except String Unit
  sendText : String → String → Nat → Except String Unit

/-- `String(err && err.message || err)` applied to a thrown `lastErr`
(`none` models `undefined`, unreachable with a positive attempt budget). -/
def errMsg (e : Option String) : String := e.getD "undefined"

/-- The body of the `for (const raw of numbers)` loop (lines 287-333) for
one recipient, returning the pushed result entry together with the trace
of backend interactions. -/
def dispatchOne (countryCode : String) (env : DispatchEnv)
    (media : Option MessageMedia) (caption : Option String)
    (text : Option String) (raw : String) :
    DispatchResult × RecipientTrace :=
  match normalizeNumber countryCode raw with
  | none =>
    ({ number := raw, status := .failed, reason := some "Número inválido" },
     ⟨false, none⟩)
  | some normalized =>
    match (withRetries (env.getNumberId normalized) "getNumberId").result with
    | .error e =>
      ({ number := normalized, status := .failed, reason := some (errMsg e) },
       ⟨true, none⟩)
    | .ok none =>
      ({ number := normalized, status := .failed,
         reason := some "El número no tiene WhatsApp" },
       ⟨true, none⟩)
    | .ok (some chatId) =>
      match media with
      | some m =>
        match (withRetries (env.sendMedia chatId m caption)
            "sendMessage(media)").result with
        | .ok _ =>
          ({ number := normalized, status := .sent },
           ⟨true, some (.media m caption)⟩)
        | .error e =>
          let msg := errMsg e
          if strIncludes msg "getMessageModel" || strIncludes msg "serialize" then
            ({ number := normalized, status := .sent_with_warning,
               warning := some "Bug de serialización en wwebjs" },
             ⟨true, some (.media m caption)⟩)
          else
            ({ number := normalized, status := .failed, reason := some msg },
             ⟨true, some (.media m caption)⟩)
      | none =>
        match text with
        | some t =>
          if t.isEmpty then
            ({ number := normalized, status := .sent }, ⟨true, none⟩)
          else
            match (withRetries (env.sendText chatId t)
                "sendMessage(text)").result with
            | .ok _ =>
              ({ number := normalized, status := .sent },
               ⟨true, some (.text t)⟩)
            | .error e =>
              let msg := errMsg e
              if strIncludes msg "getMessageModel" || strIncludes msg "serialize" then
                ({ number := normalized, status := .sent_with_warning,
                   warning := some "Bug de serialización en wwebjs" },
                 ⟨true, some (.text t)⟩)
              else
                ({ number := normalized, status := .failed, reason := some msg },
                 ⟨true, some (.text t)⟩)
        | none =>
          ({ number := normalized, status := .sent }, ⟨true, none⟩)

/-- The recipient loop with the `results.push` accumulator made explicit. -/
def dispatchLoop (countryCode : String) (env : DispatchEnv)
    (media : Option MessageMedia) (caption : Option String)
    (text : Option String) :
    List String → List (DispatchResult × RecipientTrace) →
    List (DispatchResult × RecipientTrace)
  | [], acc => acc
  | raw :: rest, acc =>
    dispatchLoop countryCode env media caption text rest
      (acc ++ [dispatchOne countryCode env media caption text raw])

/-- Run the recipient loop on the whole list, starting from the empty
`results` array. -/
def dispatchAll (countryCode : String) (env : DispatchEnv)
    (media : Option MessageMedia) (caption : Option String)
    (text : Option String) (numbers : List String) :
    List (DispatchResult × RecipientTrace) :=
  dispatchLoop countryCode env media caption text numbers []

/-! ## The `POST /send-whatsapp` handler (lines 262-342) -/

/-- The request body: `numbers` is `none` when the field is missing or not
an array; the optional string fields may be present but empty (falsy). -/
structure SendReq where
  numbers : Option (List String)
  imageUrl : Option String
  caption : Option String
  text : Option String

/-- JavaScript truthiness of an optional string field. -/
def truthy : Option String → Bool
  | none => false
  | some s => !s.isEmpty

/-- The HTTP response of the handler: a 400 with error (and optional
detail), a 503, or a 200 with the status line and the `detail` array. -/
inductive SendResponse where
  | badRequest (err : String) (detail : Option String)
  | notReady
  | ok (status : String) (detail : List DispatchResult)

/-- Discriminator: is the response a 400? -/
def isBadRequest : SendResponse → Bool
  | .badRequest _ _ => true
  | _ => false

/-- The `POST /send-whatsapp` handler. `mediaEnvs i` gives the collaborator
outcomes for the `i`-th retry attempt of `buildMediaFromUrl`; the second
component of the result is the per-recipient backend-interaction trace
(empty when the dispatch loop never ran). -/
def sendWhatsapp (clientReady : Bool) (countryCode : String)
    (env : DispatchEnv) (mediaEnvs : Nat → MediaEnv) (req : SendReq) :
    SendResponse × List RecipientTrace :=
  match req.numbers with
  | none => (.badRequest "Faltan parámetros: numbers[]" none, [])
  | some numbers =>
    if numbers.isEmpty then
      (.badRequest "Faltan parámetros: numbers[]" none, [])
    else if !clientReady then
      (.notReady, [])
    else if !truthy req.imageUrl && !truthy req.text then
      (.badRequest "Debes enviar imageUrl o text." none, [])
    else
      let mediaRes : Except String (Option MessageMedia) :=
        match req.imageUrl with
        | some url =>
          if url.isEmpty then .ok none
          else
            match (withRetries
                (fun i => buildMediaFromUrl (mediaEnvs i) url)
                "buildMediaFromUrl").result with
            | .ok m => .ok (some m)
            | .error e => .error (errMsg e)
        | none => .ok none
      match mediaRes with
      | .error e => (.badRequest "No se pudo preparar la imagen" (some e), [])
      | .ok mediaOpt =>
        let pairs := dispatchAll countryCode env mediaOpt req.caption req.text numbers
        let results := pairs.map Prod.fst
        let sent := (results.filter
          (fun r => r.status == SendStatus.sent
            || r.status == SendStatus.sent_with_warning)).length
        let failedCount := (results.filter
          (fun r => r.status == SendStatus.failed)).length
        (.ok ("Mensajes enviados: " ++ toString sent ++ ", fallidos: "
            ++ toString failedCount) results,
         pairs.map Prod.snd)

/-- The detail array of a 200 response (`none` for non-200 responses). -/
def okDetail : SendResponse → Option (List DispatchResult)
  | .ok _ d => some d
  | _ => none

/-! ## Concrete oracles used for witness evaluations -/

/-- A backend oracle whose lookups report no account and whose sends
succeed. -/
def trivialEnv : DispatchEnv where
  getNumberId := fun _ _ => .ok none
  sendMedia := fun _ _ _ _ => .ok ()
  sendText := fun _ _ _ => .ok ()

/-- A backend oracle whose lookups succeed and whose sends fail: the
media send with a serialization-defect message, the text send with an
unrelated message. -/
def failSendEnv : DispatchEnv where
  getNumberId := fun n _ => .ok (some (n ++ "@c.us"))
  sendMedia := fun _ _ _ _ => .error "Evaluation failed: serialize error"
  sendText := fun _ _ _ => .error "network down"

/-- A concrete media object. -/
def sampleMedia : MessageMedia := ⟨"image/png", "AQI=", some "pic.png"⟩

/-- A media oracle on which both resolution paths fail. -/
def stubMediaEnv : MediaEnv :=
  ⟨.error "primary down", .error "axios down", fun _ => ""⟩

/-! ## Theorems -/

/-- An empty string has length zero. -/
theorem isEmpty_length {s : String} (h : s.isEmpty = true) : s.length = 0 := by
  have he : s = "" := (String.isEmpty_iff s).1 h
  simp [he]

/--
C1: for every raw recipient string, `normalizeNumber` first strips all
non-digit characters; if the resulting digit string has length ≥ 11 it is
returned unchanged; if its length is in [8,10] and a default country
prefix is configured, the result is the prefix prepended to the digits;
if its length is < 8 the result is `none`, regardless of whether a prefix
is configured.
-/
theorem normalizeNumber_spec (countryCode raw : String) :
    (11 ≤ (stripNonDigits raw).length →
      normalizeNumber countryCode raw = some (stripNonDigits raw))
    ∧ (8 ≤ (stripNonDigits raw).length → (stripNonDigits raw).length ≤ 10 →
        countryCode.isEmpty = false →
        normalizeNumber countryCode raw = some (countryCode ++ stripNonDigits raw))
    ∧ ((stripNonDigits raw).length < 8 →
        normalizeNumber countryCode raw = none) := by
  unfold normalizeNumber
  by_cases hr : raw.isEmpty
  · have hraw : raw = "" := (String.isEmpty_iff raw).1 hr
    subst hraw
    refine ⟨fun h => ?_, fun h => ?_, fun _ => ?_⟩ <;>
      simp_all [stripNonDigits]
  · rw [if_neg hr]
    by_cases hd : (stripNonDigits raw).isEmpty
    · have h0 : (stripNonDigits raw).length = 0 := isEmpty_length hd
      exact ⟨fun h => by omega, fun h => by omega, fun _ => by rw [if_pos hd]⟩
    · rw [if_neg hd]
      by_cases h11 : 11 ≤ (stripNonDigits raw).length
      · exact ⟨fun _ => by rw [if_pos h11],
          fun _ h10 _ => absurd h11 (by omega),
          fun h8 => absurd h11 (by omega)⟩
      · rw [if_neg h11]
        refine ⟨fun h => absurd h h11, fun h8 h10 hcc => ?_, fun h8 => ?_⟩
        · have hset : (if 8 ≤ (stripNonDigits raw).length ∧
              (stripNonDigits raw).length ≤ 10 ∧ countryCode.isEmpty = false then
              countryCode ++ stripNonDigits raw else stripNonDigits raw)
              = countryCode ++ stripNonDigits raw := if_pos ⟨h8, h10, hcc⟩
          rw [hset]
          have hlen : 8 ≤ (countryCode ++ stripNonDigits raw).length := by
            rw [String.length_append]; omega
          rw [if_pos hlen]
        · have hset : (if 8 ≤ (stripNonDigits raw).length ∧
              (stripNonDigits raw).length ≤ 10 ∧ countryCode.isEmpty = false then
              countryCode ++ stripNonDigits raw else stripNonDigits raw)
              = stripNonDigits raw := if_neg (fun hc => absurd hc.1 (by omega))
          rw [hset]
          rw [if_neg (by omega : ¬ 8 ≤ (stripNonDigits raw).length)]

/-- Witness for C1 at concrete inputs: a 10-digit number gets the
configured prefix, a 12-digit number is returned unchanged, and a 5-digit
number is rejected. -/
theorem normalizeNumber_spec_witness :
    normalizeNumber "57" "300-123-4567" = some "573001234567"
    ∧ normalizeNumber "57" "573001234567" = some "573001234567"
    ∧ normalizeNumber "57" "12345" = none :=
  ⟨(normalizeNumber_spec "57" "300-123-4567").2.1 (by decide) (by decide) (by decide),
   (normalizeNumber_spec "57" "573001234567").1 (by decide),
   (normalizeNumber_spec "57" "12345").2.2 (by decide)⟩

/--
C2: an operation that fails `k` times and then succeeds, with
`k < MAX_RETRIES = 3`, returns the success value after exactly `k` delayed
retries, where the delay recorded after failed attempt number `attempt`
(0-indexed) equals `RETRY_BASE_MS * 2 ^ attempt`.
-/
theorem withRetries_eventual_success {A : Type} (a : A) (errs : Nat → String)
    (label : String) (k : Nat) (hk : k < MAX_RETRIES) :
    (withRetries (fun i => if i < k then .error (errs i) else .ok a) label).result
      = .ok a
    ∧ (withRetries (fun i => if i < k then .error (errs i) else .ok a) label).delays
      = (List.range k).map (fun i => RETRY_BASE_MS * 2 ^ i) := by
  simp only [MAX_RETRIES] at hk
  interval_cases k <;>
    simp [withRetries, withRetriesGo, backoffDelay, MAX_RETRIES, RETRY_BASE_MS,
      List.range_succ]

/-- Witness for C2: an operation failing twice then succeeding returns the
value after delays of 500ms and 1000ms. -/
theorem withRetries_eventual_success_witness :
    (withRetries (fun i => if i < 2 then .error "transient" else .ok 42)
      "getNumberId").result = .ok 42
    ∧ (withRetries (fun i => if i < 2 then .error "transient" else .ok 42)
      "getNumberId").delays = [500, 1000] := by
  have h := withRetries_eventual_success 42 (fun _ => "transient") "getNumberId" 2
    (by decide)
  exact ⟨h.1, h.2.trans (by decide)⟩

/--
C3 counterexample: an operation that always fails with message `"boom"`
under the label `"getNumberId"` propagates exactly `"boom"`: the
propagated error does not contain the operation's label, so the
propagated cause is not annotated with the label.
-/
theorem withRetries_label_counterexample :
    (withRetries (fun _ => (.error "boom" : Except String Unit))
      "getNumberId").result = .error (some "boom")
    ∧ strIncludes "boom" "getNumberId" = false :=
  ⟨rfl, rfl⟩

/--
C3 (amended): an operation that fails on all attempts exhausts the full
attempt budget (`MAX_RETRIES = 3`, with a backoff sleep after every failed
attempt including the last) and then propagates the last failure's cause
unchanged; the operation's label appears in the warning log line emitted
for each failed attempt, not on the propagated error.
-/
theorem withRetries_exhaustion {A : Type} (fn : Nat → Except String A)
    (errs : Nat → String) (label : String)
    (h : ∀ i, fn i = .error (errs i)) :
    (withRetries fn label).result = .error (some (errs (MAX_RETRIES - 1)))
    ∧ (withRetries fn label).delays = [500, 1000, 2000]
    ∧ (withRetries fn label).logs =
        [⟨label, 1, errs 0, 500⟩, ⟨label, 2, errs 1, 1000⟩,
         ⟨label, 3, errs 2, 2000⟩] := by
  refine ⟨?_, ?_, ?_⟩ <;>
    simp [withRetries, withRetriesGo, h 0, h 1, h 2, backoffDelay,
      MAX_RETRIES, RETRY_BASE_MS]

/-- Witness for C3 (amended): a concrete always-failing operation. -/
theorem withRetries_exhaustion_witness :
    (withRetries (fun i => (.error (toString i) : Except String Unit))
      "sendMessage(media)").result = .error (some "2")
    ∧ (withRetries (fun i => (.error (toString i) : Except String Unit))
      "sendMessage(media)").logs =
        [⟨"sendMessage(media)", 1, "0", 500⟩,
         ⟨"sendMessage(media)", 2, "1", 1000⟩,
         ⟨"sendMessage(media)", 3, "2", 2000⟩] := by
  have h := withRetries_exhaustion (fun i => (.error (toString i) : Except String Unit))
    (fun i => toString i) "sendMessage(media)" (fun _ => rfl)
  exact ⟨h.1, h.2.2⟩

/-- The dispatch loop is the pointwise map of the loop body over the
recipient list, prepended with whatever was already accumulated. -/
theorem dispatchLoop_eq (countryCode : String) (env : DispatchEnv)
    (media : Option MessageMedia) (caption text : Option String) :
    ∀ (l : List String) (acc : List (DispatchResult × RecipientTrace)),
    dispatchLoop countryCode env media caption text l acc
      = acc ++ l.map (dispatchOne countryCode env media caption text) := by
  intro l
  induction l with
  | nil => intro acc; simp [dispatchLoop]
  | cons a l ih => intro acc; simp [dispatchLoop, ih]

/--
C4: for every request with N recipients, the result sequence is the
pointwise image of the input list under the per-recipient loop body: it
has exactly N entries, entry i is a function of recipient i alone (so an
error for one recipient never aborts or changes the processing of
subsequent recipients), and a recipient that fails normalization still
produces a `failed` entry.
-/
theorem dispatch_results_one_to_one (countryCode : String) (env : DispatchEnv)
    (media : Option MessageMedia) (caption text : Option String)
    (numbers : List String) :
    dispatchAll countryCode env media caption text numbers
      = numbers.map (dispatchOne countryCode env media caption text)
    ∧ (dispatchAll countryCode env media caption text numbers).length
      = numbers.length
    ∧ (∀ raw, normalizeNumber countryCode raw = none →
        (dispatchOne countryCode env media caption text raw).1
          = { number := raw, status := .failed,
              reason := some "Número inválido" }) := by
  refine ⟨dispatchLoop_eq countryCode env media caption text numbers [], ?_, ?_⟩
  · rw [show dispatchAll countryCode env media caption text numbers
      = dispatchLoop countryCode env media caption text numbers [] from rfl,
      dispatchLoop_eq]
    simp
  · intro raw h
    simp [dispatchOne, h]

/-- Witness for C4: a non-numeric recipient still produces a `failed`
entry. -/
theorem dispatch_results_one_to_one_witness :
    (dispatchOne "57" trivialEnv none none (some "hi") "abc").1
      = { number := "abc", status := .failed,
          reason := some "Número inválido" } :=
  (dispatch_results_one_to_one "57" trivialEnv none none (some "hi")
    ["abc"]).2.2 "abc" (by decide)

/--
C6: for every recipient whose send operation fails (after retries) with an
error whose message contains `getMessageModel` or `serialize`, the
dispatcher records `sent_with_warning` rather than `failed`; any other
send error is recorded as `failed` with the error detail. This holds for
both the media send and the text send.
-/
theorem send_error_classification (countryCode : String) (env : DispatchEnv)
    (raw normalized chatId : String)
    (hn : normalizeNumber countryCode raw = some normalized)
    (hl : (withRetries (env.getNumberId normalized) "getNumberId").result
        = .ok (some chatId)) :
    (∀ (m : MessageMedia) (caption text : Option String) (msg : String),
      (withRetries (env.sendMedia chatId m caption) "sendMessage(media)").result
          = .error (some msg) →
      (dispatchOne countryCode env (some m) caption text raw).1
        = if strIncludes msg "getMessageModel" || strIncludes msg "serialize" then
            { number := normalized, status := .sent_with_warning,
              warning := some "Bug de serialización en wwebjs" }
          else
            { number := normalized, status := .failed, reason := some msg })
    ∧ (∀ (caption : Option String) (t msg : String), t.isEmpty = false →
      (withRetries (env.sendText chatId t) "sendMessage(text)").result
          = .error (some msg) →
      (dispatchOne countryCode env none caption (some t) raw).1
        = if strIncludes msg "getMessageModel" || strIncludes msg "serialize" then
            { number := normalized, status := .sent_with_warning,
              warning := some "Bug de serialización en wwebjs" }
          else
            { number := normalized, status := .failed, reason := some msg }) := by
  constructor
  · intro m caption text msg hs
    by_cases hc : (strIncludes msg "getMessageModel"
        || strIncludes msg "serialize") = true
    · simp [dispatchOne, hn, hl, hs, errMsg, hc]
    · simp [dispatchOne, hn, hl, hs, errMsg, hc]
  · intro caption t msg ht hs
    by_cases hc : (strIncludes msg "getMessageModel"
        || strIncludes msg "serialize") = true
    · simp [dispatchOne, hn, hl, hs, ht, errMsg, hc]
    · simp [dispatchOne, hn, hl, hs, ht, errMsg, hc]

/-- Witness for C6: the serialization-defect message yields
`sent_with_warning`; an unrelated message yields `failed`. -/
theorem send_error_classification_witness :
    (dispatchOne "57" failSendEnv (some sampleMedia) none none
      "573001234567").1
      = { number := "573001234567", status := .sent_with_warning,
          warning := some "Bug de serialización en wwebjs" }
    ∧ (dispatchOne "57" failSendEnv none none (some "hola")
      "573001234567").1
      = { number := "573001234567", status := .failed,
          reason := some "network down" } := by
  have h := send_error_classification "57" failSendEnv "573001234567"
    "573001234567" "573001234567@c.us" (by decide) rfl
  exact ⟨(h.1 sampleMedia none none "Evaluation failed: serialize error"
      rfl).trans (by decide),
    (h.2 none "hola" "network down" (by decide) rfl).trans (by decide)⟩

/--
C7: for every URL on which the primary path (`MessageMedia.fromUrl`)
throws, the fallback path (`axios.get`) is attempted; if the fallback
succeeds, the returned payload's mime type equals the fetched response's
content-type header — defaulting to `image/jpeg` when that header is
absent — and the filename is derived from the URL's final path segment
(the part after the last `/`, truncated at `?`, defaulting to `image`).
-/
theorem buildMedia_fallback (env : MediaEnv) (imageUrl : String)
    (e : String) (resp : AxiosResp)
    (hp : env.fromUrl = .error e) (hf : env.axiosGet = .ok resp) :
    buildMediaFromUrl env imageUrl
      = .ok ⟨orDefault resp.contentType "image/jpeg", env.b64 resp.data,
          some (filenameFromUrl imageUrl)⟩
    ∧ (resp.contentType = none →
        orDefault resp.contentType "image/jpeg" = "image/jpeg")
    ∧ filenameFromUrl imageUrl
      = (if ((jsSplit ((jsSplit imageUrl '/').getLastD "") '?').headD "").isEmpty
         then "image"
         else (jsSplit ((jsSplit imageUrl '/').getLastD "") '?').headD "") :=
  ⟨by simp [buildMediaFromUrl, hp, hf], fun h => by simp [h, orDefault], rfl⟩

/-- Witness for C7 at a concrete environment: a failing primary path, a
fallback response without a content-type header, and a URL with a query
string. -/
theorem buildMedia_fallback_witness :
    buildMediaFromUrl
      ⟨.error "fromUrl timeout", .ok ⟨none, [1, 2]⟩, fun _ => "AQI="⟩
      "http://h/img/pic.png?s=1"
      = .ok ⟨"image/jpeg", "AQI=", some "pic.png"⟩ :=
  (buildMedia_fallback
    ⟨.error "fromUrl timeout", .ok ⟨none, [1, 2]⟩, fun _ => "AQI="⟩
    "http://h/img/pic.png?s=1" "fromUrl timeout" ⟨none, [1, 2]⟩
    rfl rfl).1.trans (by rfl)

/--
C8: `initClient` is idempotent — a call made while an initialization is
already in flight leaves the state unchanged and does not invoke the
client's `initialize` (and after any `initClient` call, a second call
never invokes it again, so at most one initialization attempt is in
flight); arming the reconnect supervisor while one is already armed is a
no-op; and the supervisor timer is cleared when the `ready` event fires.
-/
theorem lifecycle_guards :
    (∀ s : WaState, s.initializing = true → initClient s = (s, false))
    ∧ (∀ s : WaState, (initClient (initClient s).1).2 = false)
    ∧ (∀ s : WaState, s.reconnectTimer = true → scheduleReconnect s = s)
    ∧ (∀ s : WaState, (onReady s).reconnectTimer = false) := by
  refine ⟨fun s h => by simp [initClient, h], fun s => ?_,
    fun s h => by simp [scheduleReconnect, h], fun s => rfl⟩
  by_cases h : s.initializing <;> simp [initClient, h]

/-- Witness for C8 at concrete states. -/
theorem lifecycle_guards_witness :
    initClient ⟨false, "INIT", false, none, true⟩
      = (⟨false, "INIT", false, none, true⟩, false)
    ∧ scheduleReconnect ⟨false, "INIT", true, none, false⟩
      = ⟨false, "INIT", true, none, false⟩ :=
  ⟨lifecycle_guards.1 ⟨false, "INIT", false, none, true⟩ rfl,
   lifecycle_guards.2.2.1 ⟨false, "INIT", true, none, false⟩ rfl⟩

/--
C9: when media is present, the loop body sends the media (with the
optional caption) and ignores `text` entirely: the produced entry and
trace are independent of `text`, and no text send is ever performed; the
text send happens only when no media is present (and the text is truthy
and the recipient was resolved).
-/
theorem media_precedence (countryCode : String) (env : DispatchEnv)
    (m : MessageMedia) (caption : Option String) (raw : String) :
    (∀ t1 t2, dispatchOne countryCode env (some m) caption t1 raw
        = dispatchOne countryCode env (some m) caption t2 raw)
    ∧ (∀ t tk, (dispatchOne countryCode env (some m) caption t raw).2.send
        ≠ some (.text tk))
    ∧ (∀ t normalized chatId, t.isEmpty = false →
        normalizeNumber countryCode raw = some normalized →
        (withRetries (env.getNumberId normalized) "getNumberId").result
          = .ok (some chatId) →
        (dispatchOne countryCode env none caption (some t) raw).2.send
          = some (.text t)) := by
  refine ⟨fun t1 t2 => ?_, fun t tk => ?_, fun t normalized chatId ht hn hl => ?_⟩
  · unfold dispatchOne
    cases hn : normalizeNumber countryCode raw with
    | none => rfl
    | some normalized =>
      cases hl : (withRetries (env.getNumberId normalized) "getNumberId").result with
      | error e => rfl
      | ok o =>
        cases o with
        | none => rfl
        | some chatId => rfl
  · unfold dispatchOne
    cases hn : normalizeNumber countryCode raw with
    | none => simp
    | some normalized =>
      cases hl : (withRetries (env.getNumberId normalized) "getNumberId").result with
      | error e => simp [hl]
      | ok o =>
        cases o with
        | none => simp [hl]
        | some chatId =>
          simp only [hl]
          cases hs : (withRetries (env.sendMedia chatId m caption)
              "sendMessage(media)").result with
          | ok u => simp [hs]
          | error e =>
            simp only [hs]
            split <;> simp
  · cases hs : (withRetries (env.sendText chatId t) "sendMessage(text)").result with
    | ok u => simp [dispatchOne, hn, hl, ht, hs]
    | error e =>
      by_cases hc : (strIncludes (errMsg e) "getMessageModel"
          || strIncludes (errMsg e) "serialize") = true <;>
        simp [dispatchOne, hn, hl, ht, hs, hc]

/-- Witness for C9: with the always-failing-send oracle, the text branch
records the text send once the recipient resolves. -/
theorem media_precedence_witness :
    (dispatchOne "57" failSendEnv none none (some "hola")
      "573001234567").2.send = some (.text "hola") :=
  (media_precedence "57" failSendEnv sampleMedia none "573001234567").2.2
    "hola" "573001234567" "573001234567@c.us" (by decide) (by decide) rfl

/--
C5 counterexample: a request with valid `numbers` but neither `imageUrl`
nor `text`, sent while the session is not ready, yields the 503
not-ready response, not a 400: the readiness check sits between the
`numbers` validation and the content validation.
-/
theorem validation_order_counterexample :
    isBadRequest (sendWhatsapp false "57" trivialEnv (fun _ => stubMediaEnv)
      ⟨some ["3001234567"], none, none, none⟩).1 = false
    ∧ (sendWhatsapp false "57" trivialEnv (fun _ => stubMediaEnv)
      ⟨some ["3001234567"], none, none, none⟩).1 = SendResponse.notReady :=
  ⟨rfl, rfl⟩

/--
C5 (amended): a request whose `numbers` is missing or empty gets a 400
regardless of session readiness, before any session check; with valid
`numbers`, the readiness check runs first — a request with neither
`imageUrl` nor `text` gets a 400 only when the session is ready, and the
503 not-ready response otherwise.
-/
theorem validation_order (ready : Bool) (countryCode : String)
    (env : DispatchEnv) (mediaEnvs : Nat → MediaEnv) (req : SendReq) :
    ((req.numbers = none ∨ req.numbers = some []) →
      sendWhatsapp ready countryCode env mediaEnvs req
        = (.badRequest "Faltan parámetros: numbers[]" none, []))
    ∧ (∀ ns, req.numbers = some ns → ns ≠ [] → ready = false →
      sendWhatsapp ready countryCode env mediaEnvs req = (.notReady, []))
    ∧ (∀ ns, req.numbers = some ns → ns ≠ [] → ready = true →
      truthy req.imageUrl = false → truthy req.text = false →
      sendWhatsapp ready countryCode env mediaEnvs req
        = (.badRequest "Debes enviar imageUrl o text." none, [])) := by
  refine ⟨fun h => ?_, fun ns hns hne hr => ?_, fun ns hns hne hr hi ht => ?_⟩
  · rcases h with h | h
    · simp [sendWhatsapp, h]
    · simp [sendWhatsapp, h]
  · subst hr
    cases ns with
    | nil => exact absurd rfl hne
    | cons a l => simp [sendWhatsapp, hns]
  · subst hr
    cases ns with
    | nil => exact absurd rfl hne
    | cons a l => simp [sendWhatsapp, hns, hi, ht]

/-- Witness for C5 (amended): concrete requests exercising each branch. -/
theorem validation_order_witness :
    sendWhatsapp true "57" trivialEnv (fun _ => stubMediaEnv)
      ⟨some [], some "http://h/p.png", none, none⟩
      = (.badRequest "Faltan parámetros: numbers[]" none, [])
    ∧ sendWhatsapp false "57" trivialEnv (fun _ => stubMediaEnv)
      ⟨some ["3001234567"], some "http://h/p.png", none, none⟩
      = (.notReady, [])
    ∧ sendWhatsapp true "57" trivialEnv (fun _ => stubMediaEnv)
      ⟨some ["3001234567"], none, none, some ""⟩
      = (.badRequest "Debes enviar imageUrl o text." none, []) :=
  ⟨(validation_order true "57" trivialEnv (fun _ => stubMediaEnv)
      ⟨some [], some "http://h/p.png", none, none⟩).1 (Or.inr rfl),
   (validation_order false "57" trivialEnv (fun _ => stubMediaEnv)
      ⟨some ["3001234567"], some "http://h/p.png", none, none⟩).2.1
      ["3001234567"] rfl (by decide) rfl,
   (validation_order true "57" trivialEnv (fun _ => stubMediaEnv)
      ⟨some ["3001234567"], none, none, some ""⟩).2.2
      ["3001234567"] rfl (by decide) rfl rfl rfl⟩

/--
C10: for a request with `imageUrl`, media resolution happens once,
before the recipient loop; if resolution fails after the retry budget the
response is the 400 `No se pudo preparar la imagen` and no lookup or send
is performed for any recipient (the interaction trace is empty); if it
succeeds, every recipient is dispatched with the single resolved media
object.
-/
theorem media_resolution_gate (countryCode : String) (env : DispatchEnv)
    (mediaEnvs : Nat → MediaEnv) (numbers : List String) (url : String)
    (caption text : Option String)
    (hns : numbers ≠ []) (hurl : url.isEmpty = false) :
    (∀ oe, (withRetries (fun i => buildMediaFromUrl (mediaEnvs i) url)
        "buildMediaFromUrl").result = .error oe →
      sendWhatsapp true countryCode env mediaEnvs
          ⟨some numbers, some url, caption, text⟩
        = (.badRequest "No se pudo preparar la imagen" (some (errMsg oe)), []))
    ∧ (∀ m, (withRetries (fun i => buildMediaFromUrl (mediaEnvs i) url)
        "buildMediaFromUrl").result = .ok m →
      (sendWhatsapp true countryCode env mediaEnvs
          ⟨some numbers, some url, caption, text⟩).2
        = numbers.map
            (fun r => (dispatchOne countryCode env (some m) caption text r).2)
      ∧ okDetail (sendWhatsapp true countryCode env mediaEnvs
          ⟨some numbers, some url, caption, text⟩).1
        = some (numbers.map
            (fun r => (dispatchOne countryCode env (some m) caption text r).1))) := by
  have htr : truthy (some url) = true := by simp [truthy, hurl]
  constructor
  · intro oe hres
    cases numbers with
    | nil => exact absurd rfl hns
    | cons a l => simp [sendWhatsapp, htr, hurl, hres]
  · intro m hres
    cases numbers with
    | nil => exact absurd rfl hns
    | cons a l =>
      constructor
      · simp [sendWhatsapp, htr, hurl, hres, dispatchAll, dispatchLoop_eq,
          okDetail]
      · simp [sendWhatsapp, htr, hurl, hres, dispatchAll, dispatchLoop_eq,
          okDetail]

/-- Witness for C10: with both media paths down, the request is rejected
with the 400 and the dispatch loop never runs. -/
theorem media_resolution_gate_witness :
    sendWhatsapp true "57" trivialEnv (fun _ => stubMediaEnv)
      ⟨some ["3001234567"], some "http://h/p.png", none, none⟩
      = (.badRequest "No se pudo preparar la imagen"
          (some "No se pudo descargar la imagen: axios down"), []) :=
  (media_resolution_gate "57" trivialEnv (fun _ => stubMediaEnv)
    ["3001234567"] "http://h/p.png" none none (by decide) (by decide)).1
    (some "No se pudo descargar la imagen: axios down") rfl

end WsService
